import Mathlib

/-!
Shallow embedding of `src/src/utils/screenshotsaver.cpp` (flameshot-wl-copy).

The file is effectful glue code: it talks to the OS (pipe/fork/exec/write),
to Qt (file writes, dialogs, the clipboard) and to a logger.  We embed each
function as a pure Lean function that returns the list of external effects it
performs (an `Ev` trace), together with its return value.  Outcomes of the
fallible external calls (did `pipe2` succeed, did `capture.save` succeed,
was the dialog accepted, ...) are supplied by explicit environment
structures, so each C++ function becomes a total function of its arguments
and its environment.
-/

/-- External effects performed by the code in `screenshotsaver.cpp`.
Each constructor records one call into the OS, Qt, or the logger, with the
arguments the source passes (and the outcome, for calls whose result the
source inspects). -/
inductive Ev where
  /-- Call `pipe2(pipefds.data(), O_CLOEXEC)`; `ok` is whether it returned `0`. -/
  | pipe2 (ok : Bool)
  /-- Call `fork()` returning `pid`. -/
  | fork (pid : Int)
  /-- Call `close(fd)`. -/
  | closeFd (fd : Nat)
  /-- Call `dup2(src, dst)`; `ok` is whether it returned a descriptor (not `-1`). -/
  | dup2 (src dst : Nat) (ok : Bool)
  /-- Call `execlp(prog, args..., NULL)`. -/
  | exec (prog : String) (args : List String)
  /-- Call `write(fd, array.data(), array.size())` of the whole byte array. -/
  | writeFd (fd : Nat) (data : List Nat)
  /-- Call `waitpid(pid, nullptr, 0)`. -/
  | waitpid (pid : Int)
  /-- Call `AbstractLogger::error().attachNotificationPath(p) << msg` (with `p = ""`
  when no notification path is attached). -/
  | logError (notifPath msg : String)
  /-- Call `AbstractLogger::info().attachNotificationPath(p) << msg`. -/
  | logInfo (notifPath msg : String)
  /-- Opening `QFile{path}` for writing and calling `capture.save(&file)`;
  `ok` is the result of the save. -/
  | fileWrite (path : String) (ok : Bool)
  /-- Call `KSystemClipboard::instance()->setMimeData(..., QClipboard::Clipboard)`
  with image data and (when `forceImageCopy`) `x-kde-force-image-copy` set. -/
  | kdeClipboardSetMime (forceImageCopy : Bool)
  /-- Call `QApplication::clipboard()->setMimeData(...)` carrying `data` under
  mime type `mime`. -/
  | qtClipboardSetMime (mime : String) (data : List Nat)
  /-- Call `dialog.setMimeTypeFilters(l)`. -/
  | dialogSetMimeFilters (l : List String)
  /-- Call `dialog.selectMimeTypeFilter(s)`. -/
  | dialogSelectMimeFilter (s : String)
  /-- Call `dialog.setDefaultSuffix(s)`. -/
  | dialogSetDefaultSuffix (s : String)
  /-- Call `ConfigHandler().setSavePath(dir)`: the persisted save-path
  configuration is changed to `dir`. -/
  | setSavePath (dir : String)
  /-- Call `FlameshotDaemon::copyToClipboard(path, ...)`. -/
  | copyPathToClipboard (path : String)
  /-- Executing a modal `QMessageBox` with the given title and text. -/
  | showMessageBox (title msg : String)
deriving DecidableEq, Repr

/-- The constant `STDIN_FILENO`. -/
def STDIN_FILENO : Nat := 0

/-- Environment for `saveToClipboardWlCopy`: outcomes of the system calls it
makes.  `readFd`/`writeFd` are the descriptors `pipe2` would place in
`pipefds[0]`/`pipefds[1]` on success; on failure the value-initialised
`std::array` leaves both entries `0`.  `forkResult` is what `fork()` returns
(`-1` failure, `0` child, positive parent).  `errStr` is what `strerror_r`
writes for the current `errno`. -/
structure WlEnv where
  pipe2Ok : Bool
  readFd : Nat
  writeFd : Nat
  forkResult : Int
  dup2Ok : Bool
  execOk : Bool
  errStr : String
deriving Repr

/-- Helper `logErr(name)` (lines 102-108): logs `"wl_copy: <name>: <strerror(errno)>"`
through `AbstractLogger::error()`, with no notification path. -/
def logErr (name errStr : String) : Ev :=
  Ev.logError "" ("wl_copy: " ++ name ++ ": " ++ errStr)

/-- Function `saveToClipboardWlCopy` (lines 110-139).  Returns the effect trace of the
process that called it.  When `fork` returns `0` we are in the child: it runs
the child block and, if `execlp` succeeds, never reaches the code after the
block; if `execlp` fails (`execOk = false`) the child falls through to the
parent tail, exactly as the source does (nothing checks `execlp`). -/
def saveToClipboardWlCopy (array : List Nat) (imageType : String) (env : WlEnv) :
    List Ev :=
  if imageType != "png" then
    [Ev.logError "" "WL_COPY option only supports png"]
  else
    let fds : Nat × Nat := if env.pipe2Ok then (env.readFd, env.writeFd) else (0, 0)
    let tPipe := Ev.pipe2 env.pipe2Ok ::
      (if env.pipe2Ok then [] else [logErr "pipe2" env.errStr])
    let pid := env.forkResult
    let tFork := Ev.fork pid ::
      (if pid == -1 then [logErr "fork" env.errStr] else [])
    let tChild :=
      if pid == 0 then
        Ev.closeFd fds.2 :: Ev.dup2 fds.1 STDIN_FILENO env.dup2Ok ::
          ((if env.dup2Ok then [] else [logErr "dup2" env.errStr]) ++
            [Ev.closeFd fds.1, Ev.exec "wl-copy" ["wl-copy", "-t", "image/png"]])
      else []
    let tParent :=
      [Ev.closeFd fds.1, Ev.writeFd fds.2 array, Ev.closeFd fds.2, Ev.waitpid pid]
    if pid == 0 && env.execOk then tPipe ++ tFork ++ tChild
    else tPipe ++ tFork ++ tChild ++ tParent

/-- A captured bitmap; only its identity matters to this file, the actual
pixel data being opaque to every function here. -/
structure QPixmap where
  pixels : List Nat
deriving DecidableEq, Repr

/-- Environment for `saveToClipboardMime`: the behaviour of the Qt image
codecs (`encode` is the byte array `QImageWriter` leaves in the buffer,
`loadFromData` the success of `formattedPixmap.loadFromData` on those bytes),
and the compile-time platform switches `USE_WL_COPY` and
`USE_WAYLAND_CLIPBOARD`. -/
structure MimeEnv where
  encode : QPixmap → String → List Nat
  loadFromData : List Nat → String → Bool
  wlCopyDefined : Bool
  waylandClipboardDefined : Bool
  wlEnv : WlEnv

/-- Function `saveToClipboardMime` (lines 141-175).  The `#ifdef USE_WL_COPY` /
`#elif defined(USE_WAYLAND_CLIPBOARD)` / `#else` chain is embedded as the
corresponding if-chain on the two switches. -/
def saveToClipboardMime (capture : QPixmap) (imageType : String) (env : MimeEnv) :
    List Ev :=
  let array := env.encode capture imageType
  let isLoaded := env.loadFromData array imageType
  if isLoaded then
    if env.wlCopyDefined then
      saveToClipboardWlCopy array imageType env.wlEnv
    else if env.waylandClipboardDefined then
      [Ev.logInfo "" "wl_wayland_copy", Ev.kdeClipboardSetMime true]
    else
      [Ev.qtClipboardSetMime ("image/" ++ imageType) array]
  else
    [Ev.logError "" "Error while saving to clipboard"]

/-- Environment for `saveToFilesystem`: the behaviour of
`FileNameHandler().properScreenshotPath`, the configured
`saveAsFileExtension`, whether `capture.save(&file)` succeeds, and the
`QFile` error state afterwards (`fileHasError` is `file.error() != NoError`,
`fileErrorString` is `file.errorString()`). -/
structure FsEnv where
  properScreenshotPath : String → String → String
  saveAsFileExtension : String
  saveOk : Bool
  fileHasError : Bool
  fileErrorString : String

/-- Function `saveToFilesystem` (lines 37-67): returns the `bool` result together with
the effect trace. -/
def saveToFilesystem (capture : QPixmap) (path msgPfx : String) (env : FsEnv) :
    Bool × List Ev :=
  let completePath := env.properScreenshotPath path env.saveAsFileExtension
  let okay := env.saveOk
  let saveMessage := if msgPfx.isEmpty then msgPfx else msgPfx ++ " "
  if okay then
    (true,
      [Ev.fileWrite completePath true,
       Ev.logInfo completePath (saveMessage ++ "Capture saved as " ++ completePath)])
  else
    let msg := saveMessage ++ "Error trying to save as " ++ completePath
    let msg := if env.fileHasError then msg ++ ": " ++ env.fileErrorString else msg
    (false, [Ev.fileWrite completePath false, Ev.logError "" msg])

/-- Environment for `ShowSaveFileDialog`: `QImageWriter::supportedMimeTypes()`,
the configured `saveAsFileExtension`, the `QMimeDatabase` lookup, and how the
user drives the dialog (`accepted`, `selectedFiles`).  Qt guarantees an
accepted save dialog has at least one selected file. -/
structure DialogEnv where
  supportedMimeTypes : List String
  saveAsFileExtension : String
  mimeTypeForFile : String → String
  accepted : Bool
  selectedFiles : List String

/-- The filter `ShowSaveFileDialog` applies to the supported mime types
(lines 76-84): `image/heic`, `image/heic-sequence` and `image/heif-sequence`
are dropped, everything else is appended in order. -/
def dialogMimeTypeList (supported : List String) : List String :=
  supported.filter fun mimeType =>
    mimeType != "image/heic" && mimeType != "image/heic-sequence" &&
      mimeType != "image/heif-sequence"

/-- Function `ShowSaveFileDialog` (lines 69-100): returns the selected path (empty
when not accepted) together with the effect trace. -/
def ShowSaveFileDialog (title directory : String) (env : DialogEnv) :
    String × List Ev :=
  let mimeTypeList := dialogMimeTypeList env.supportedMimeTypes
  let suffix := if env.saveAsFileExtension.isEmpty then "png"
                else env.saveAsFileExtension
  let defaultMimeType := env.mimeTypeForFile ("image." ++ suffix)
  let evs := [Ev.dialogSetMimeFilters mimeTypeList,
              Ev.dialogSelectMimeFilter defaultMimeType,
              Ev.dialogSetDefaultSuffix suffix]
  if env.accepted then (env.selectedFiles.headD "", evs) else ("", evs)

/-- Helper for `QString::lastIndexOf(QLatin1String("/"))`: character index of the last
slash, `-1` when there is none. -/
def lastSlashAux : List Char → Nat → Option Nat → Option Nat
  | [], _, acc => acc
  | c :: cs, i, acc => lastSlashAux cs (i + 1) (if c = '/' then some i else acc)

/-- Expression `savePath.lastIndexOf(QLatin1String("/"))` as an `Int`. -/
def qlastIndexOfSlash (s : String) : Int :=
  match lastSlashAux s.data 0 none with
  | some i => (i : Int)
  | none => -1

/-- Method `QString::left(n)`: the first `n` characters, or the whole string when
`n` is negative or at least the length. -/
def qleft (s : String) (n : Int) : String :=
  if n < 0 then s
  else if (s.length : Int) ≤ n then s
  else s.take n.toNat

/-- Expression `savePath.left(savePath.lastIndexOf(QLatin1String("/")))` (lines
244-245): the directory part of the chosen file. -/
def pathNoFileOf (savePath : String) : String :=
  qleft savePath (qlastIndexOfSlash savePath)

/-- Environment for `saveToFilesystemGUI`: the persisted configuration
(`savePathConfig`, `savePathFixed`, `saveAsFileExtension`,
`copyPathAfterSave`), the filesystem facts the function checks
(`savePathExists` is `QDir(savePath).exists()`, `savePathWritable` is
`QFileInfo(savePath).isWritable()`), `QStandardPaths`' pictures location,
`FileNameHandler().properScreenshotPath`, the dialog behaviour, the outcome
of `capture.save`, and the `QFile` error state.  The `Q_OS_MACOS` widget
walk (lines 220-230) is compiled out on the Linux targets this repository
builds for and has no effect we track. -/
structure GuiEnv where
  savePathConfig : String
  savePathExists : Bool
  savePathWritable : Bool
  picturesLocation : String
  properScreenshotPath : String → String → String
  saveAsFileExtension : String
  savePathFixed : Bool
  dialogEnv : DialogEnv
  saveOk : Bool
  fileHasError : Bool
  fileErrorString : String
  copyPathAfterSave : Bool

/-- The `defaultSavePath` computed by lines 212-217: the configured save path
unless it is empty, missing or unwritable, in which case the standard
pictures location. -/
def defaultSavePathOf (env : GuiEnv) : String :=
  if env.savePathConfig.isEmpty || !env.savePathExists || !env.savePathWritable
  then env.picturesLocation else env.savePathConfig

/-- The `savePath` `saveToFilesystemGUI` ends up with after lines 218-233:
the proper screenshot path under the default directory, replaced by the
dialog's choice unless the save path is fixed. -/
def chosenSavePath (env : GuiEnv) : String :=
  let savePath := env.properScreenshotPath (defaultSavePathOf env)
    env.saveAsFileExtension
  if env.savePathFixed then savePath
  else (ShowSaveFileDialog "Save screenshot" savePath env.dialogEnv).1

/-- Function `saveToFilesystemGUI` (lines 208-271): returns the `bool` result together
with the effect trace (the dialog's own effects included when it is shown). -/
def saveToFilesystemGUI (capture : QPixmap) (env : GuiEnv) : Bool × List Ev :=
  let savePath0 := env.properScreenshotPath (defaultSavePathOf env)
    env.saveAsFileExtension
  let dlgEvents := if env.savePathFixed then []
    else (ShowSaveFileDialog "Save screenshot" savePath0 env.dialogEnv).2
  let savePath := chosenSavePath env
  if savePath = "" then (false, dlgEvents)
  else if env.saveOk then
    (true, dlgEvents ++
      [Ev.fileWrite savePath true,
       Ev.setSavePath (pathNoFileOf savePath),
       Ev.logInfo savePath ("Capture saved as " ++ savePath)] ++
      (if env.copyPathAfterSave then [Ev.copyPathToClipboard savePath] else []))
  else
    (false, dlgEvents ++
      [Ev.fileWrite savePath false,
       Ev.showMessageBox "Save Error"
         ("Error trying to save as " ++ savePath ++
           (if env.fileHasError then ": " ++ env.fileErrorString else ""))])

/-- Does a trace touch the KDE Wayland clipboard backend? -/
def usesKde (tr : List Ev) : Bool :=
  tr.any fun e => match e with
    | Ev.kdeClipboardSetMime _ => true
    | _ => false

/-- Does a trace touch the standard Qt clipboard backend? -/
def usesQt (tr : List Ev) : Bool :=
  tr.any fun e => match e with
    | Ev.qtClipboardSetMime _ _ => true
    | _ => false

/-- Does a trace touch the wl-copy helper-process backend (any of the
process-management system calls)? -/
def usesWlHelper (tr : List Ev) : Bool :=
  tr.any fun e => match e with
    | Ev.pipe2 _ => true
    | Ev.fork _ => true
    | Ev.exec _ _ => true
    | Ev.writeFd _ _ => true
    | Ev.waitpid _ => true
    | _ => false

/-- A concrete `WlEnv` in which every system call succeeds and `fork`
returns a positive pid (the parent's view). -/
def wlEnvParentEx : WlEnv := ⟨true, 3, 4, 7, true, true, "E"⟩

/-- A concrete `WlEnv` in which every system call succeeds and `fork`
returns `0` (the child's view). -/
def wlEnvChildEx : WlEnv := ⟨true, 3, 4, 0, true, true, "E"⟩

/-- A concrete `WlEnv` in which both `pipe2` and `fork` fail. -/
def wlEnvPipeForkFailEx : WlEnv := ⟨false, 3, 4, -1, true, true, "E"⟩

/-- A concrete `MimeEnv` with a successful codec round-trip and only
`USE_WAYLAND_CLIPBOARD` defined. -/
def mimeEnvKdeEx : MimeEnv :=
  ⟨fun c _ => c.pixels, fun _ _ => true, false, true, wlEnvParentEx⟩

/-- A concrete `MimeEnv` whose codec round-trip fails. -/
def mimeEnvLoadFailEx : MimeEnv :=
  ⟨fun c _ => c.pixels, fun _ _ => false, false, false, wlEnvParentEx⟩

/-- A concrete `FsEnv` in which the image save succeeds. -/
def fsEnvOkEx : FsEnv := ⟨fun p e => p ++ "." ++ e, "png", true, false, ""⟩

/-- A concrete `FsEnv` in which the image save fails and the file reports an
error string. -/
def fsEnvFailEx : FsEnv := ⟨fun p e => p ++ "." ++ e, "png", false, true, "denied"⟩

/-- A concrete `DialogEnv`: three supported mime types (one a heic alias),
dialog accepted with one selected file. -/
def dialogEnvEx : DialogEnv :=
  ⟨["image/png", "image/heic", "image/heif"], "png", fun _ => "image/png", true,
   ["/home/u/s.png"]⟩

/-- A concrete `DialogEnv` in which the dialog is cancelled. -/
def dialogEnvCancelEx : DialogEnv :=
  ⟨["image/png"], "png", fun _ => "image/png", false, []⟩

/-- A concrete `GuiEnv`: dialog shown and accepted, image save succeeds. -/
def guiEnvEx : GuiEnv :=
  ⟨"/home/u/shots", true, true, "/home/u/Pictures",
   fun p e => p ++ "/cap." ++ e, "png", false, dialogEnvEx, true, false, "",
   false⟩

/-- A concrete `GuiEnv`: dialog shown and cancelled. -/
def guiEnvCancelEx : GuiEnv :=
  ⟨"/home/u/shots", true, true, "/home/u/Pictures",
   fun p e => p ++ "/cap." ++ e, "png", false, dialogEnvCancelEx, true, false,
   "", false⟩

/-- Helper: the trace of `saveToClipboardWlCopy` never touches the KDE or
Qt clipboard backends, whatever the environment. -/
theorem wlCopy_no_clipboard_events (array : List Nat) (imageType : String)
    (env : WlEnv) :
    usesKde (saveToClipboardWlCopy array imageType env) = false ∧
    usesQt (saveToClipboardWlCopy array imageType env) = false := by
  unfold saveToClipboardWlCopy usesKde usesQt
  split
  · simp
  · cases env.pipe2Ok <;> cases env.dup2Ok <;> cases env.execOk <;>
      cases h1 : (env.forkResult == -1) <;> cases h2 : (env.forkResult == 0) <;>
        simp_all [logErr]

/-- Helper: the effect trace of `ShowSaveFileDialog` is the same three dialog
calls whether or not the dialog was accepted. -/
theorem showSaveFileDialog_events (title directory : String) (env : DialogEnv) :
    (ShowSaveFileDialog title directory env).2 =
      [Ev.dialogSetMimeFilters (dialogMimeTypeList env.supportedMimeTypes),
       Ev.dialogSelectMimeFilter (env.mimeTypeForFile ("image." ++
         (if env.saveAsFileExtension.isEmpty then "png"
          else env.saveAsFileExtension))),
       Ev.dialogSetDefaultSuffix (if env.saveAsFileExtension.isEmpty then "png"
         else env.saveAsFileExtension)] := by
  cases h : env.accepted <;> simp [ShowSaveFileDialog, h]

/-- C1: for every byte array and the image type "png",
`saveToClipboardWlCopy` creates a pipe and forks; the parent (positive
`fork` result) closes the read end, writes the entire byte array to the
write end, closes it, and waits for the child; the child (`fork` result `0`)
closes the write end, redirects the read end to stdin via `dup2`, closes it,
and execs `wl-copy -t image/png`. -/
theorem saveToClipboardWlCopy_png_spec (array : List Nat) (env : WlEnv)
    (hp : env.pipe2Ok = true) :
    (0 < env.forkResult →
      saveToClipboardWlCopy array "png" env =
        [Ev.pipe2 true, Ev.fork env.forkResult, Ev.closeFd env.readFd,
         Ev.writeFd env.writeFd array, Ev.closeFd env.writeFd,
         Ev.waitpid env.forkResult]) ∧
    (env.forkResult = 0 → env.dup2Ok = true → env.execOk = true →
      saveToClipboardWlCopy array "png" env =
        [Ev.pipe2 true, Ev.fork 0, Ev.closeFd env.writeFd,
         Ev.dup2 env.readFd STDIN_FILENO true, Ev.closeFd env.readFd,
         Ev.exec "wl-copy" ["wl-copy", "-t", "image/png"]]) := by
  constructor
  · intro h
    have h1 : (env.forkResult == -1) = false := by
      simp only [beq_eq_false_iff_ne, ne_eq]
      omega
    have h2 : (env.forkResult == 0) = false := by
      simp only [beq_eq_false_iff_ne, ne_eq]
      omega
    simp [saveToClipboardWlCopy, hp, h1, h2]
  · intro h0 hd he
    simp [saveToClipboardWlCopy, hp, h0, hd, he]

/-- C1 witness: a concrete parent-side run. -/
theorem saveToClipboardWlCopy_png_spec_witness :
    saveToClipboardWlCopy [1, 2] "png" wlEnvParentEx =
      [Ev.pipe2 true, Ev.fork 7, Ev.closeFd 3, Ev.writeFd 4 [1, 2],
       Ev.closeFd 4, Ev.waitpid 7] :=
  (saveToClipboardWlCopy_png_spec [1, 2] wlEnvParentEx rfl).1 (by decide)

/-- C8: for every image type other than "png", `saveToClipboardWlCopy` only
logs "WL_COPY option only supports png" and returns: no pipe, no fork, no
write, nothing on the clipboard. -/
theorem saveToClipboardWlCopy_non_png (array : List Nat) (imageType : String)
    (env : WlEnv) (h : imageType ≠ "png") :
    saveToClipboardWlCopy array imageType env =
      [Ev.logError "" "WL_COPY option only supports png"] ∧
    usesWlHelper (saveToClipboardWlCopy array imageType env) = false := by
  have htr : saveToClipboardWlCopy array imageType env =
      [Ev.logError "" "WL_COPY option only supports png"] := by
    simp [saveToClipboardWlCopy, h]
  exact ⟨htr, by rw [htr]; rfl⟩

/-- C8 witness: a concrete run with image type "jpeg". -/
theorem saveToClipboardWlCopy_non_png_witness :
    saveToClipboardWlCopy [1] "jpeg" wlEnvParentEx =
      [Ev.logError "" "WL_COPY option only supports png"] :=
  (saveToClipboardWlCopy_non_png [1] "jpeg" wlEnvParentEx (by decide)).1

/-- C2: failing system calls in `saveToClipboardWlCopy` only produce a log
line and execution continues.  After a `pipe2` failure the fork, the write
and the waitpid still happen (on the value-initialised descriptors `0`);
after a `fork` failure the parent tail still runs (with pid `-1`); after a
`dup2` failure the child still closes the read end and execs. -/
theorem saveToClipboardWlCopy_failure_handling (array : List Nat) (env : WlEnv) :
    (env.pipe2Ok = false → env.forkResult = -1 →
      saveToClipboardWlCopy array "png" env =
        [Ev.pipe2 false, logErr "pipe2" env.errStr, Ev.fork (-1),
         logErr "fork" env.errStr, Ev.closeFd 0, Ev.writeFd 0 array,
         Ev.closeFd 0, Ev.waitpid (-1)]) ∧
    (env.pipe2Ok = false → 0 < env.forkResult →
      saveToClipboardWlCopy array "png" env =
        [Ev.pipe2 false, logErr "pipe2" env.errStr, Ev.fork env.forkResult,
         Ev.closeFd 0, Ev.writeFd 0 array, Ev.closeFd 0,
         Ev.waitpid env.forkResult]) ∧
    (env.pipe2Ok = true → env.forkResult = 0 → env.dup2Ok = false →
      env.execOk = true →
      saveToClipboardWlCopy array "png" env =
        [Ev.pipe2 true, Ev.fork 0, Ev.closeFd env.writeFd,
         Ev.dup2 env.readFd STDIN_FILENO false, logErr "dup2" env.errStr,
         Ev.closeFd env.readFd,
         Ev.exec "wl-copy" ["wl-copy", "-t", "image/png"]]) := by
  refine ⟨?_, ?_, ?_⟩
  · intro hp hf
    simp [saveToClipboardWlCopy, hp, hf]
  · intro hp hf
    have h1 : (env.forkResult == -1) = false := by
      simp only [beq_eq_false_iff_ne, ne_eq]
      omega
    have h2 : (env.forkResult == 0) = false := by
      simp only [beq_eq_false_iff_ne, ne_eq]
      omega
    simp [saveToClipboardWlCopy, hp, h1, h2]
  · intro hp h0 hd he
    simp [saveToClipboardWlCopy, hp, h0, hd, he]

/-- C2 witness: a concrete run in which both `pipe2` and `fork` fail; the
write and the waitpid still happen. -/
theorem saveToClipboardWlCopy_failure_handling_witness :
    saveToClipboardWlCopy [7] "png" wlEnvPipeForkFailEx =
      [Ev.pipe2 false, logErr "pipe2" "E", Ev.fork (-1), logErr "fork" "E",
       Ev.closeFd 0, Ev.writeFd 0 [7], Ev.closeFd 0, Ev.waitpid (-1)] :=
  (saveToClipboardWlCopy_failure_handling [7] wlEnvPipeForkFailEx).1 rfl rfl

/-- C3: `saveToFilesystem`'s failure handling is exactly "log and return
false": it is total (no throw, and its trace is always the file write plus
exactly one log line); on failure it returns `false` and logs one error
message, with the file's error string appended when the file reports an
error, and logs nothing informational; on success it returns `true` and logs
one informational message and no error. -/
theorem saveToFilesystem_failure_handling (capture : QPixmap)
    (path msgPfx : String) (env : FsEnv) :
    ((saveToFilesystem capture path msgPfx env).1 = env.saveOk) ∧
    ((saveToFilesystem capture path msgPfx env).2.length = 2) ∧
    (env.saveOk = false →
      (saveToFilesystem capture path msgPfx env).1 = false ∧
      (∃ msg, Ev.logError "" msg ∈ (saveToFilesystem capture path msgPfx env).2 ∧
        (env.fileHasError = true →
          ∃ p, msg = p ++ ": " ++ env.fileErrorString)) ∧
      (∀ p m, Ev.logInfo p m ∉ (saveToFilesystem capture path msgPfx env).2)) ∧
    (env.saveOk = true →
      (saveToFilesystem capture path msgPfx env).1 = true ∧
      (∃ p m, Ev.logInfo p m ∈ (saveToFilesystem capture path msgPfx env).2) ∧
      (∀ m, Ev.logError "" m ∉ (saveToFilesystem capture path msgPfx env).2)) := by
  cases hs : env.saveOk <;> cases hf : env.fileHasError <;>
    simp [saveToFilesystem, hs, hf]
  exact ⟨_, rfl⟩

/-- C3 witness: a concrete failing save returns false and logs no
informational line. -/
theorem saveToFilesystem_failure_handling_witness :
    (saveToFilesystem ⟨[1]⟩ "/p" "pre" fsEnvFailEx).1 = false ∧
    Ev.logInfo "x" "y" ∉ (saveToFilesystem ⟨[1]⟩ "/p" "pre" fsEnvFailEx).2 :=
  ⟨((saveToFilesystem_failure_handling ⟨[1]⟩ "/p" "pre" fsEnvFailEx).2.2.1
      rfl).1,
   ((saveToFilesystem_failure_handling ⟨[1]⟩ "/p" "pre" fsEnvFailEx).2.2.1
      rfl).2.2 "x" "y"⟩

/-- C7: `saveToFilesystem` writes the bitmap at the complete path produced
by `properScreenshotPath` applied to the given path and the configured save
extension, and returns `true` exactly when that save succeeds. -/
theorem saveToFilesystem_proper_path (capture : QPixmap) (path msgPfx : String)
    (env : FsEnv) :
    ((saveToFilesystem capture path msgPfx env).1 = true ↔ env.saveOk = true) ∧
    Ev.fileWrite (env.properScreenshotPath path env.saveAsFileExtension)
        env.saveOk
      ∈ (saveToFilesystem capture path msgPfx env).2 := by
  cases hs : env.saveOk <;> simp [saveToFilesystem, hs]

/-- C7 witness: a concrete successful save returns true. -/
theorem saveToFilesystem_proper_path_witness :
    (saveToFilesystem ⟨[1]⟩ "/p" "" fsEnvOkEx).1 = true :=
  (saveToFilesystem_proper_path ⟨[1]⟩ "/p" "" fsEnvOkEx).1.mpr rfl

/-- C4: when the codec round-trip succeeds, `saveToClipboardMime` copies
through exactly one backend, selected by the compile-time switches: the
wl-copy helper process when `USE_WL_COPY` is defined (and then neither KDE
nor Qt clipboard is touched), `KSystemClipboard` when only
`USE_WAYLAND_CLIPBOARD` is defined, and the standard Qt clipboard with mime
type `image/<type>` otherwise. -/
theorem saveToClipboardMime_backend_selection (capture : QPixmap)
    (imageType : String) (env : MimeEnv)
    (h : env.loadFromData (env.encode capture imageType) imageType = true) :
    (env.wlCopyDefined = true →
      saveToClipboardMime capture imageType env =
        saveToClipboardWlCopy (env.encode capture imageType) imageType
          env.wlEnv ∧
      usesKde (saveToClipboardMime capture imageType env) = false ∧
      usesQt (saveToClipboardMime capture imageType env) = false) ∧
    (env.wlCopyDefined = false → env.waylandClipboardDefined = true →
      saveToClipboardMime capture imageType env =
        [Ev.logInfo "" "wl_wayland_copy", Ev.kdeClipboardSetMime true] ∧
      usesKde (saveToClipboardMime capture imageType env) = true ∧
      usesQt (saveToClipboardMime capture imageType env) = false ∧
      usesWlHelper (saveToClipboardMime capture imageType env) = false) ∧
    (env.wlCopyDefined = false → env.waylandClipboardDefined = false →
      saveToClipboardMime capture imageType env =
        [Ev.qtClipboardSetMime ("image/" ++ imageType)
          (env.encode capture imageType)] ∧
      usesQt (saveToClipboardMime capture imageType env) = true ∧
      usesKde (saveToClipboardMime capture imageType env) = false ∧
      usesWlHelper (saveToClipboardMime capture imageType env) = false) := by
  refine ⟨?_, ?_, ?_⟩
  · intro hwl
    have htr : saveToClipboardMime capture imageType env =
        saveToClipboardWlCopy (env.encode capture imageType) imageType
          env.wlEnv := by
      simp [saveToClipboardMime, h, hwl]
    refine ⟨htr, ?_, ?_⟩ <;> rw [htr]
    · exact (wlCopy_no_clipboard_events _ _ _).1
    · exact (wlCopy_no_clipboard_events _ _ _).2
  · intro hwl hwc
    have htr : saveToClipboardMime capture imageType env =
        [Ev.logInfo "" "wl_wayland_copy", Ev.kdeClipboardSetMime true] := by
      simp [saveToClipboardMime, h, hwl, hwc]
    refine ⟨htr, ?_, ?_, ?_⟩ <;> rw [htr] <;> rfl
  · intro hwl hwc
    have htr : saveToClipboardMime capture imageType env =
        [Ev.qtClipboardSetMime ("image/" ++ imageType)
          (env.encode capture imageType)] := by
      simp [saveToClipboardMime, h, hwl, hwc]
    refine ⟨htr, ?_, ?_, ?_⟩ <;> rw [htr] <;> rfl

/-- C4 witness: a concrete run on the `USE_WAYLAND_CLIPBOARD` build copies
through `KSystemClipboard` only. -/
theorem saveToClipboardMime_backend_selection_witness :
    saveToClipboardMime ⟨[1]⟩ "png" mimeEnvKdeEx =
      [Ev.logInfo "" "wl_wayland_copy", Ev.kdeClipboardSetMime true] :=
  ((saveToClipboardMime_backend_selection ⟨[1]⟩ "png" mimeEnvKdeEx rfl).2.1
    rfl rfl).1

/-- C10: when the codec round-trip fails, `saveToClipboardMime` logs
"Error while saving to clipboard" and invokes no clipboard backend: not the
wl-copy helper, not KSystemClipboard, not the Qt clipboard. -/
theorem saveToClipboardMime_load_failure (capture : QPixmap)
    (imageType : String) (env : MimeEnv)
    (h : env.loadFromData (env.encode capture imageType) imageType = false) :
    saveToClipboardMime capture imageType env =
      [Ev.logError "" "Error while saving to clipboard"] ∧
    usesWlHelper (saveToClipboardMime capture imageType env) = false ∧
    usesKde (saveToClipboardMime capture imageType env) = false ∧
    usesQt (saveToClipboardMime capture imageType env) = false := by
  have htr : saveToClipboardMime capture imageType env =
      [Ev.logError "" "Error while saving to clipboard"] := by
    simp [saveToClipboardMime, h]
  refine ⟨htr, ?_, ?_, ?_⟩ <;> rw [htr] <;> rfl

/-- C10 witness: a concrete failing round-trip only logs. -/
theorem saveToClipboardMime_load_failure_witness :
    saveToClipboardMime ⟨[1]⟩ "png" mimeEnvLoadFailEx =
      [Ev.logError "" "Error while saving to clipboard"] :=
  (saveToClipboardMime_load_failure ⟨[1]⟩ "png" mimeEnvLoadFailEx rfl).1

/-- C5: the mime-type list `ShowSaveFileDialog` passes to the dialog is
exactly the image writer's supported mime types with `image/heic`,
`image/heic-sequence` and `image/heif-sequence` removed, in their original
order (it is a sublist of the supported list); `image/heif` itself is kept
whenever it is supported. -/
theorem ShowSaveFileDialog_mime_filters (title directory : String)
    (env : DialogEnv) :
    Ev.dialogSetMimeFilters (dialogMimeTypeList env.supportedMimeTypes)
      ∈ (ShowSaveFileDialog title directory env).2 ∧
    (dialogMimeTypeList env.supportedMimeTypes).Sublist
      env.supportedMimeTypes ∧
    (∀ m, m ∈ dialogMimeTypeList env.supportedMimeTypes ↔
      (m ∈ env.supportedMimeTypes ∧ m ≠ "image/heic" ∧
       m ≠ "image/heic-sequence" ∧ m ≠ "image/heif-sequence")) ∧
    ("image/heif" ∈ env.supportedMimeTypes →
      "image/heif" ∈ dialogMimeTypeList env.supportedMimeTypes) := by
  have hmem : ∀ m, m ∈ dialogMimeTypeList env.supportedMimeTypes ↔
      (m ∈ env.supportedMimeTypes ∧ m ≠ "image/heic" ∧
       m ≠ "image/heic-sequence" ∧ m ≠ "image/heif-sequence") := by
    intro m
    simp [dialogMimeTypeList, List.mem_filter, and_assoc]
  refine ⟨?_, ?_, hmem, ?_⟩
  · cases h : env.accepted <;> simp [ShowSaveFileDialog, h]
  · exact List.filter_sublist _
  · intro h
    exact (hmem "image/heif").mpr ⟨h, by decide, by decide, by decide⟩

/-- C5 witness: on a concrete supported list, the filters are passed to the
dialog and `image/heif` is kept. -/
theorem ShowSaveFileDialog_mime_filters_witness :
    Ev.dialogSetMimeFilters (dialogMimeTypeList dialogEnvEx.supportedMimeTypes)
      ∈ (ShowSaveFileDialog "t" "d" dialogEnvEx).2 ∧
    "image/heif" ∈ dialogMimeTypeList dialogEnvEx.supportedMimeTypes :=
  ⟨(ShowSaveFileDialog_mime_filters "t" "d" dialogEnvEx).1,
   (ShowSaveFileDialog_mime_filters "t" "d" dialogEnvEx).2.2.2 (by decide)⟩

/-- C6: `ShowSaveFileDialog` returns the first selected file when the dialog
is accepted and the empty string otherwise, and it sets the dialog's default
suffix to the configured save extension, falling back to "png" when that is
empty. -/
theorem ShowSaveFileDialog_result_suffix (title directory : String)
    (env : DialogEnv) :
    (ShowSaveFileDialog title directory env).1 =
      (if env.accepted then env.selectedFiles.headD "" else "") ∧
    Ev.dialogSetDefaultSuffix
        (if env.saveAsFileExtension.isEmpty then "png"
         else env.saveAsFileExtension)
      ∈ (ShowSaveFileDialog title directory env).2 := by
  cases h : env.accepted <;> simp [ShowSaveFileDialog, h]

/-- C9: `saveToFilesystemGUI` changes the persisted save-path configuration
only on success: when the chosen path is empty (dialog cancelled) it returns
`false`, writes no file and changes no configuration; and a `setSavePath`
effect occurs exactly when the function returns `true`, in which case the
new value is the directory part of the chosen file. -/
theorem saveToFilesystemGUI_config_on_success (capture : QPixmap)
    (env : GuiEnv) :
    (chosenSavePath env = "" →
      (saveToFilesystemGUI capture env).1 = false ∧
      (∀ p b, Ev.fileWrite p b ∉ (saveToFilesystemGUI capture env).2) ∧
      (∀ d, Ev.setSavePath d ∉ (saveToFilesystemGUI capture env).2)) ∧
    (∀ d, Ev.setSavePath d ∈ (saveToFilesystemGUI capture env).2 ↔
      ((saveToFilesystemGUI capture env).1 = true ∧
        d = pathNoFileOf (chosenSavePath env))) := by
  have hdlg := showSaveFileDialog_events "Save screenshot"
    (env.properScreenshotPath (defaultSavePathOf env) env.saveAsFileExtension)
    env.dialogEnv
  constructor
  · intro h0
    cases hf : env.savePathFixed <;>
      simp [saveToFilesystemGUI, h0, hf, hdlg]
  · intro d
    by_cases h0 : chosenSavePath env = ""
    · cases hf : env.savePathFixed <;>
        simp [saveToFilesystemGUI, h0, hf, hdlg]
    · cases hs : env.saveOk <;> cases hf : env.savePathFixed <;>
        cases hc : env.copyPathAfterSave <;>
          simp [saveToFilesystemGUI, h0, hs, hf, hc, hdlg]

/-- C9 witness: a concrete cancelled dialog returns false with no file
written and no configuration change; a concrete successful run records the
save-path change. -/
theorem saveToFilesystemGUI_config_on_success_witness :
    ((saveToFilesystemGUI ⟨[1]⟩ guiEnvCancelEx).1 = false ∧
      Ev.setSavePath "/x" ∉ (saveToFilesystemGUI ⟨[1]⟩ guiEnvCancelEx).2) ∧
    (Ev.setSavePath "/home/u" ∈ (saveToFilesystemGUI ⟨[1]⟩ guiEnvEx).2 ↔
      ((saveToFilesystemGUI ⟨[1]⟩ guiEnvEx).1 = true ∧
        "/home/u" = pathNoFileOf (chosenSavePath guiEnvEx))) :=
  ⟨⟨((saveToFilesystemGUI_config_on_success ⟨[1]⟩ guiEnvCancelEx).1 rfl).1,
    ((saveToFilesystemGUI_config_on_success ⟨[1]⟩ guiEnvCancelEx).1
      rfl).2.2 "/x"⟩,
   (saveToFilesystemGUI_config_on_success ⟨[1]⟩ guiEnvEx).2 "/home/u"⟩
